import Mathlib

/-!
Shallow embedding of the core of the `decaday/embedded-audio` repository:
the single-slot buffer hand-off primitive (`embedded-audio/src/databus/slot.rs`
and `embedded-audio-driver/src/slot.rs`), the payload guard
(`embedded-audio-driver/src/payload.rs`), and the chunk position-tagging
performed by the source stages (`embedded-audio/src/generator/sine_wave.rs`
and `embedded-audio/src/decoder/wav.rs`).

Buffers are byte regions, embedded as `List Nat`; the atomic `State` field is
an explicit state component; asynchronous `poll_fn` bodies are embedded as
step functions whose outcome is `pending` (the future stays suspended),
`panicked` (a Rust `panic!`/`unwrap` abort) or a ready value.  Floating-point
sample synthesis in the sine generator is abstracted by an integer-valued
sample function parameter; no claim below depends on sample values.
-/

/-- Position of payload in a data sequence
    (`embedded-audio-driver/src/payload.rs`). -/
inductive Position where
  | Single
  | First
  | Last
  | Middle
  deriving DecidableEq, Repr

/-- Metadata for payload data (`embedded-audio-driver/src/payload.rs`):
    a position and the length of valid data in the payload buffer. -/
structure Metadata where
  position : Position
  valid_length : Nat
  deriving DecidableEq, Repr

/-- Modelled from the spec: the `Default` impl for `Metadata`, used by
`unwrap_or_default` in `Slot::new_payload`, lives in a crate revision that is
not present under the source tree.  The spec describes the cleared default as
zero length with no position assumed; the position component is represented
here by `Single` as a placeholder, and no theorem below depends on which
variant it is. -/
def defaultMetadata : Metadata := ⟨Position.Single, 0⟩

/-- The state machine of `embedded-audio/src/databus/slot.rs` (`enum State`). -/
inductive SlotState where
  | Empty
  | Reading
  | Writing
  | Full
  | NoneBuffer
  deriving DecidableEq, Repr

/-- The `Slot` of `embedded-audio/src/databus/slot.rs`: an atomic state, an
optional buffer cell and an optional stored metadata cell (wakers carry no
state relevant to the claims and are omitted). -/
structure Slot where
  state : SlotState
  buffer : Option (List Nat)
  payload_metadata : Option Metadata
  deriving DecidableEq, Repr

/-- The `Payload` guard of `embedded-audio-driver/src/payload.rs`. -/
structure Payload where
  data : List Nat
  metadata : Metadata
  is_write : Bool
  deriving DecidableEq, Repr

/-- `Payload::set_valid_length`: stores `length.min(self.data.len())`. -/
def Payload.set_valid_length (p : Payload) (length : Nat) : Payload :=
  { p with metadata := { p.metadata with valid_length := min length p.data.length } }

/-- `Payload::set_position`. -/
def Payload.set_position (p : Payload) (position : Position) : Payload :=
  { p with metadata := { p.metadata with position := position } }

/-- `Slot::new`: `Empty` when a buffer is supplied, `NoneBuffer` otherwise;
the metadata cell starts as `None`. -/
def Slot.new (buffer : Option (List Nat)) : Slot :=
  { state := if buffer.isSome then SlotState.Empty else SlotState.NoneBuffer
    buffer := buffer
    payload_metadata := none }

/-- Outcome of `Slot::set_buffer`, which panics when the state is not
`Empty`. -/
inductive SetBufferOutcome where
  | panicked (msg : String)
  | ok (s : Slot)
  deriving DecidableEq, Repr

/-- `Slot::set_buffer` of `embedded-audio/src/databus/slot.rs`: panics unless
the state is `Empty`; otherwise replaces the buffer cell and stores `Empty`
or `NoneBuffer` according to whether a buffer was supplied. -/
def Slot.set_buffer (s : Slot) (buffer : Option (List Nat)) : SetBufferOutcome :=
  if s.state ≠ SlotState.Empty then
    SetBufferOutcome.panicked "Cannot set buffer when slot is not empty"
  else
    SetBufferOutcome.ok
      { s with
        buffer := buffer
        state := if buffer.isSome then SlotState.Empty else SlotState.NoneBuffer }

/-- `Slot::get_current_metadata`. -/
def Slot.get_current_metadata (s : Slot) : Option Metadata :=
  s.payload_metadata

/-- Outcome of one poll of `acquire_read`/`acquire_write`. -/
inductive AcquireOutcome where
  | pending
  | panicked (msg : String)
  | ready (s : Slot) (p : Payload)
  deriving DecidableEq, Repr

/-- `Slot::new_payload`: takes the buffer out of the cell (`unwrap` panics if
it is absent) and takes the stored metadata, defaulting when none is
stored. -/
def Slot.new_payload (s : Slot) (is_write : Bool) : AcquireOutcome :=
  match s.buffer with
  | none => AcquireOutcome.panicked "called Option::unwrap on a None value"
  | some b =>
      AcquireOutcome.ready
        { s with buffer := none, payload_metadata := none }
        ⟨b, s.payload_metadata.getD defaultMetadata, is_write⟩

/-- One poll of `Slot::acquire_read`: compare-and-swap `Full -> Reading`,
then `new_payload(false)`; otherwise the future registers its waker and
stays pending. -/
def Slot.acquire_read (s : Slot) : AcquireOutcome :=
  if s.state = SlotState.Full then
    Slot.new_payload { s with state := SlotState.Reading } false
  else
    AcquireOutcome.pending

/-- One poll of `Slot::acquire_write`: compare-and-swap `Empty -> Writing`,
then `new_payload(true)`; otherwise pending. -/
def Slot.acquire_write (s : Slot) : AcquireOutcome :=
  if s.state = SlotState.Empty then
    Slot.new_payload { s with state := SlotState.Writing } true
  else
    AcquireOutcome.pending

/-- `Slot::release` (the `Databus` impl): restores the buffer and metadata
and stores `Full` after a write, `Empty` after a read. -/
def Slot.release (s : Slot) (buf : List Nat) (metadata : Metadata) (is_write : Bool) : Slot :=
  { s with
    buffer := some buf
    payload_metadata := some metadata
    state := if is_write then SlotState.Full else SlotState.Empty }

/-- `impl Drop for Payload` (`embedded-audio-driver/src/payload.rs`): hands
the buffer and the payload's current metadata back via `release`. -/
def Payload.drop (p : Payload) (s : Slot) : Slot :=
  Slot.release s p.data p.metadata p.is_write

/-- The state machine of `embedded-audio-driver/src/slot.rs` (`enum State`):
this crate's `Slot` iteration has no `NoneBuffer` state. -/
inductive DrvState where
  | Empty
  | Reading
  | Writing
  | Full
  deriving DecidableEq, Repr

/-- The `Slot` of `embedded-audio-driver/src/slot.rs` (named `DrvSlot` here
to distinguish it from the `databus` crate's `Slot`). -/
structure DrvSlot where
  state : DrvState
  buffer : Option (List Nat)
  deriving DecidableEq, Repr

/-- `Slot::new` of `embedded-audio-driver/src/slot.rs`: both the `Some` and
the `None` branch pick `State::Empty` as the initial state. -/
def DrvSlot.new (buffer : Option (List Nat)) : DrvSlot :=
  { state := DrvState.Empty, buffer := buffer }

/-- `Slot::set_buffer` of `embedded-audio-driver/src/slot.rs`: performs no
state check, replaces the buffer cell and stores `Empty` unconditionally. -/
def DrvSlot.set_buffer (_s : DrvSlot) (buffer : Option (List Nat)) : DrvSlot :=
  { state := DrvState.Empty, buffer := buffer }

/-- Outcome of one poll of `InPort::acquire`/`OutPort::acquire` of
`embedded-audio-driver/src/slot.rs`. -/
inductive DrvAcquireOutcome where
  | pending
  | panicked (msg : String)
  | ready (s : DrvSlot) (data : List Nat)
  deriving DecidableEq, Repr

/-- One poll of `InPort::acquire`: compare-and-swap `Full -> Reading`, then
take the buffer (`expect` panics when it is absent). -/
def DrvSlot.in_port_acquire (s : DrvSlot) : DrvAcquireOutcome :=
  if s.state = DrvState.Full then
    match s.buffer with
    | none => DrvAcquireOutcome.panicked "Bug: Slot was in Full state but buffer was None"
    | some b => DrvAcquireOutcome.ready { state := DrvState.Reading, buffer := none } b
  else
    DrvAcquireOutcome.pending

/-- One poll of `OutPort::acquire`: compare-and-swap `Empty -> Writing`, then
take the buffer (`expect` panics when it is absent). -/
def DrvSlot.out_port_acquire (s : DrvSlot) : DrvAcquireOutcome :=
  if s.state = DrvState.Empty then
    match s.buffer with
    | none => DrvAcquireOutcome.panicked "Bug: Slot was in Empty state but buffer was None"
    | some b => DrvAcquireOutcome.ready { state := DrvState.Writing, buffer := none } b
  else
    DrvAcquireOutcome.pending

/-- `impl Drop for InPayload`: returns the buffer and stores `Empty`. -/
def DrvSlot.in_payload_drop (_s : DrvSlot) (data : List Nat) : DrvSlot :=
  { state := DrvState.Empty, buffer := some data }

/-- `impl Drop for OutPayload`: returns the buffer and stores `Full`. -/
def DrvSlot.out_payload_drop (_s : DrvSlot) (data : List Nat) : DrvSlot :=
  { state := DrvState.Full, buffer := some data }

/-- Error taxonomy.  The first eight variants are those of
`embedded-audio-driver/src/lib.rs`.  `InvalidState` is added because
`decoder/wav.rs` and `stream/cpal_output.rs` use `Error::InvalidState` and the
crate revision defining it is not present under the source tree (Modelled
from the spec: `InvalidState` is the lifecycle contract violation). -/
inductive Error where
  | InvalidParameter
  | NotInitialized
  | Busy
  | Timeout
  | BufferFull
  | BufferEmpty
  | DeviceError
  | Unsupported
  | InvalidState
  deriving DecidableEq, Repr

/-- The `Fine`/`Eof` result of a successful `Element::process` call. -/
inductive ProcessSignal where
  | Fine
  | Eof
  deriving DecidableEq, Repr

/-- A seekable byte stream, embedded after the repository's own executable
model of one (`MockReader` in `embedded-audio/src/decoder/wav.rs`): reads
return `min(requested, remaining)` bytes and seeking clamps to the end. -/
structure ByteReader where
  data : List Nat
  position : Nat
  deriving DecidableEq, Repr

/-- `Seek::seek(SeekFrom::Start(p))` on the modelled reader. -/
def ByteReader.seek_start (r : ByteReader) (p : Nat) : ByteReader :=
  if p ≤ r.data.length then { r with position := p }
  else { r with position := r.data.length }

/-- Number of bytes a read of `n` bytes returns on the modelled reader. -/
def ByteReader.read_count (r : ByteReader) (n : Nat) : Nat :=
  min (r.data.length - r.position) n

/-- The bytes a read of `n` bytes returns on the modelled reader. -/
def ByteReader.read_bytes (r : ByteReader) (n : Nat) : List Nat :=
  (r.data.drop r.position).take (r.read_count n)

/-- Reader state after a read consumed `k` bytes. -/
def ByteReader.advance (r : ByteReader) (k : Nat) : ByteReader :=
  { r with position := r.position + k }

/-- Audio stream information (`embedded-audio-driver/src/info.rs`). -/
structure Info where
  sample_rate : Nat
  channels : Nat
  bits_per_sample : Nat
  num_frames : Option Nat
  deriving DecidableEq, Repr

/-- Modelled from the spec: one side of a stage's `PortRequirements`
(section 4.3) — no connection, a raw seekable stream, a Slot-backed payload
connection of at least the given size, or in-place access.  The defining
crate revision is not present under the source tree. -/
inductive PortReq where
  | NoneReq
  | RawIO
  | PayloadReq (min_size : Nat)
  | InPlaceReq (min_size : Nat)
  deriving DecidableEq, Repr

/-- Modelled from the spec: a stage's input and output requirement pair,
as produced by `PortRequirements::new_reader_to_payload` in
`decoder/wav.rs`. -/
structure PortRequirements where
  in_req : PortReq
  out_req : PortReq
  deriving DecidableEq, Repr

/-- Modelled from the spec: `PortRequirements::new_reader_to_payload(n)` — a
raw-stream input side and a payload output side of minimum size `n`. -/
def PortRequirements.new_reader_to_payload (n : Nat) : PortRequirements :=
  ⟨PortReq.RawIO, PortReq.PayloadReq n⟩

/-- The `WavDecoder` stage state (`embedded-audio/src/decoder/wav.rs`). -/
structure WavDecoder where
  info : Option Info
  data_start : Nat
  port_requirements : Option PortRequirements
  current_position : Nat
  bytes_per_frame : Nat
  header_parsed : Bool
  is_first_chunk : Bool
  deriving DecidableEq, Repr

/-- `WavDecoder::new`. -/
def WavDecoder.new : WavDecoder :=
  { info := none
    data_start := 0
    port_requirements := none
    current_position := 0
    bytes_per_frame := 0
    header_parsed := false
    is_first_chunk := true }

/-- Outcome of `WavDecoder::get_port_requirements`, whose body is
`self.port_requirements.expect("must called after initialize")`. -/
inductive GetPortReqOutcome where
  | panicked (msg : String)
  | ok (r : PortRequirements)
  deriving DecidableEq, Repr

/-- `WavDecoder::get_port_requirements`: panics when `initialize` has not
stored the requirements yet, returns them otherwise. -/
def WavDecoder.get_port_requirements (d : WavDecoder) : GetPortReqOutcome :=
  match d.port_requirements with
  | none => GetPortReqOutcome.panicked "must called after initialize"
  | some r => GetPortReqOutcome.ok r

/-- The frame-aligned read size `aligned_read` computed by
`WavDecoder::process` for a payload of capacity `cap`:
`(max_read / bytes_per_frame) * bytes_per_frame` when `bytes_per_frame > 0`,
else `max_read`. -/
def wavAligned (d : WavDecoder) (cap : Nat) : Nat :=
  if d.bytes_per_frame > 0 then cap / d.bytes_per_frame * d.bytes_per_frame else cap

/-- The byte count the read in `WavDecoder::process` obtains from reader `r`
(after the seek to `data_start + current_position`) into a payload of
capacity `cap`. -/
def wavBytesRead (d : WavDecoder) (r : ByteReader) (cap : Nat) : Nat :=
  (r.seek_start (d.data_start + d.current_position)).read_count (wavAligned d cap)

/-- The `is_last` flag `WavDecoder::process` computes: a short read
(`bytes_read < aligned_read`), or — when the header declared a frame count —
the updated `current_position` having reached the total data size. -/
def wavIsLast (d : WavDecoder) (r : ByteReader) (cap : Nat) : Bool :=
  if wavBytesRead d r cap < wavAligned d cap then
    true
  else
    match Option.bind d.info Info.num_frames with
    | some num_frames =>
        decide (d.current_position + wavBytesRead d r cap ≥ num_frames * d.bytes_per_frame)
    | none => false

/-- Outcome of one `WavDecoder::process` call on the `(Reader, Producer)`
port pair, with the producer backed by a `Slot`. -/
inductive WavProcessOutcome where
  | ok (res : ProcessSignal) (d : WavDecoder) (r : ByteReader) (s : Slot)
  | err (e : Error)
  | pending
  | panicked (msg : String)
  deriving DecidableEq, Repr

/-- `WavDecoder::process` on the `(InPort::Reader, OutPort::Producer)` arm
(the only arm the claims concern; every other port pairing returns
`Err(Unsupported)`): seek to `data_start + current_position`, acquire a write
payload, read up to a frame-aligned prefix of the payload, set the valid
length, advance `current_position`, determine `is_last`, tag the position,
and return the payload (its drop releases the slot to `Full`). -/
def WavDecoder.process (d : WavDecoder) (r : ByteReader) (s : Slot) : WavProcessOutcome :=
  if d.header_parsed = false then
    WavProcessOutcome.err Error.InvalidState
  else
    let read_pos := d.data_start + d.current_position
    let r1 := r.seek_start read_pos
    match s.acquire_write with
    | AcquireOutcome.pending => WavProcessOutcome.pending
    | AcquireOutcome.panicked m => WavProcessOutcome.panicked m
    | AcquireOutcome.ready s1 p =>
        let aligned_read := wavAligned d p.data.length
        if aligned_read = 0 then
          WavProcessOutcome.panicked "Payload buffer too small for even one frame"
        else
          let bytes_read := r1.read_count aligned_read
          let p1 := (Payload.mk (r1.read_bytes aligned_read ++ p.data.drop bytes_read)
              p.metadata p.is_write).set_valid_length bytes_read
          let r2 := r1.advance bytes_read
          let d1 := { d with current_position := d.current_position + bytes_read }
          let is_last := wavIsLast d r p.data.length
          match d.is_first_chunk, is_last with
          | true, true =>
              WavProcessOutcome.ok ProcessSignal.Eof d1 r2
                ((p1.set_position Position.Single).drop s1)
          | true, false =>
              WavProcessOutcome.ok ProcessSignal.Fine { d1 with is_first_chunk := false } r2
                ((p1.set_position Position.First).drop s1)
          | false, true =>
              WavProcessOutcome.ok ProcessSignal.Eof d1 r2
                ((p1.set_position Position.Last).drop s1)
          | false, false =>
              WavProcessOutcome.ok ProcessSignal.Fine d1 r2
                ((p1.set_position Position.Middle).drop s1)

/-- The `SineWaveGenerator` stage state
(`embedded-audio/src/generator/sine_wave.rs`).  The `frequency` and
`amplitude` fields are `f32` values that only influence sample values and are
absorbed into the abstract sample function passed to `process`. -/
structure SineWaveGenerator where
  info : Info
  current_sample : Nat
  is_first_chunk : Bool
  total_samples : Option Nat
  deriving DecidableEq, Repr

/-- Little-endian byte expansion of `int_sample.to_le_bytes()` for an `i32`
value, two's complement. -/
def intLeBytes (i : Int) : List Nat :=
  let u := (i.emod 4294967296).toNat
  [u % 256, u / 256 % 256, u / 65536 % 256, u / 16777216 % 256]

/-- Bytes one loop iteration of `SineWaveGenerator::process` writes for
sample index `n`: the low `bytes_per_sample` bytes of the converted sample,
once per channel. -/
def sineFrame (sample : Nat → Int) (bytes_per_sample channels n : Nat) : List Nat :=
  List.flatten (List.replicate channels ((intLeBytes (sample n)).take bytes_per_sample))

/-- The `for _ in 0..max_frames` loop of `SineWaveGenerator::process`: each
iteration writes one frame, then — when a total is set and the current sample
index has reached it — sets `ended` and breaks before incrementing; otherwise
increments `current_sample`.  Returns the written bytes, the final
`current_sample` and the `ended` flag. -/
def sineLoop (sample : Nat → Int) (bytes_per_sample channels : Nat)
    (total_samples : Option Nat) : Nat → Nat → List Nat × Nat × Bool
  | 0, current => ([], current, false)
  | fuel + 1, current =>
      let frame := sineFrame sample bytes_per_sample channels current
      match total_samples with
      | some total =>
          if current ≥ total then
            (frame, current, true)
          else
            let rest := sineLoop sample bytes_per_sample channels total_samples fuel (current + 1)
            (frame ++ rest.1, rest.2.1, rest.2.2)
      | none =>
          let rest := sineLoop sample bytes_per_sample channels total_samples fuel (current + 1)
          (frame ++ rest.1, rest.2.1, rest.2.2)

/-- The `max_frames` bound `SineWaveGenerator::process` computes for a
payload of capacity `cap`: the capacity divided by
`bytes_per_sample * channels`. -/
def sineMaxFrames (g : SineWaveGenerator) (cap : Nat) : Nat :=
  cap / (g.info.bits_per_sample / 8 * g.info.channels)

/-- The generation loop of `SineWaveGenerator::process` run with the bounds
the stage derives from its own state and a payload of capacity `cap`. -/
def sineRun (sample : Nat → Int) (g : SineWaveGenerator) (cap : Nat) :
    List Nat × Nat × Bool :=
  sineLoop sample (g.info.bits_per_sample / 8) g.info.channels g.total_samples
    (sineMaxFrames g cap) g.current_sample

/-- Outcome of one `SineWaveGenerator::process` call on the
`OutPort::Payload` arm, with the databus backed by a `Slot`. -/
inductive SineProcessOutcome where
  | ok (res : ProcessSignal) (g : SineWaveGenerator) (s : Slot)
  | err (e : Error) (g : SineWaveGenerator) (s : Slot)
  | pending
  | panicked (msg : String)
  deriving DecidableEq, Repr

/-- `SineWaveGenerator::process` on the `OutPort::Payload` arm (any other
out-port returns `Err(Unsupported)`): acquire a write payload, generate up to
`max_frames` frames, set the valid length, tag the position by the
`(ended, is_first_chunk)` match, and return (the payload's drop releases the
slot to `Full` — also on the `BufferEmpty` early-error return, whose payload
guard is dropped with its metadata untouched). -/
def SineWaveGenerator.process (sample : Nat → Int) (g : SineWaveGenerator) (s : Slot) :
    SineProcessOutcome :=
  match s.acquire_write with
  | AcquireOutcome.pending => SineProcessOutcome.pending
  | AcquireOutcome.panicked m => SineProcessOutcome.panicked m
  | AcquireOutcome.ready s1 p =>
      let max_frames := sineMaxFrames g p.data.length
      if max_frames = 0 then
        SineProcessOutcome.err Error.BufferEmpty g (p.drop s1)
      else
        let lr := sineRun sample g p.data.length
        let g1 := { g with current_sample := lr.2.1 }
        let p1 := (Payload.mk (lr.1 ++ p.data.drop lr.1.length)
            p.metadata p.is_write).set_valid_length lr.1.length
        match lr.2.2, g1.is_first_chunk with
        | true, true =>
            SineProcessOutcome.ok ProcessSignal.Eof { g1 with is_first_chunk := false }
              ((p1.set_position Position.Single).drop s1)
        | true, false =>
            SineProcessOutcome.ok ProcessSignal.Eof g1
              ((p1.set_position Position.Last).drop s1)
        | false, true =>
            SineProcessOutcome.ok ProcessSignal.Fine { g1 with is_first_chunk := false }
              ((p1.set_position Position.First).drop s1)
        | false, false =>
            SineProcessOutcome.ok ProcessSignal.Fine g1
              ((p1.set_position Position.Middle).drop s1)

/-- Modelled from the spec for comparison with the code: the position-tagging
table of section 4.4 over `(is_first, is_last)` — the emitted tag and the
process result. -/
def specPositionTag (is_first is_last : Bool) : Position × ProcessSignal :=
  match is_first, is_last with
  | true, true => (Position.Single, ProcessSignal.Eof)
  | true, false => (Position.First, ProcessSignal.Fine)
  | false, true => (Position.Last, ProcessSignal.Eof)
  | false, false => (Position.Middle, ProcessSignal.Fine)

/-- An operation issued against a `Slot` through its public surface: polling
an acquisition, rebinding the buffer, or dropping a held payload (index into
the list of granted, not-yet-dropped payloads). -/
inductive SlotOp where
  | acqRead
  | acqWrite
  | setBuf (b : Option (List Nat))
  | dropAt (i : Nat)
  deriving Repr

/-- A slot together with the payloads granted from it and not yet dropped. -/
structure SlotSys where
  slot : Slot
  held : List Payload

/-- One step of the slot protocol: pending polls and panicking calls leave
the state unchanged (a panic aborts the program; no further state change
happens), a granted payload joins the held list, a drop releases it. -/
def SlotSys.step (sys : SlotSys) (op : SlotOp) : SlotSys :=
  match op with
  | SlotOp.acqRead =>
      match sys.slot.acquire_read with
      | AcquireOutcome.ready s1 p => ⟨s1, p :: sys.held⟩
      | _ => sys
  | SlotOp.acqWrite =>
      match sys.slot.acquire_write with
      | AcquireOutcome.ready s1 p => ⟨s1, p :: sys.held⟩
      | _ => sys
  | SlotOp.setBuf b =>
      match sys.slot.set_buffer b with
      | SetBufferOutcome.ok s1 => ⟨s1, sys.held⟩
      | SetBufferOutcome.panicked _ => sys
  | SlotOp.dropAt i =>
      match sys.held.get? i with
      | some p => ⟨p.drop sys.slot, sys.held.eraseIdx i⟩
      | none => sys

/-- Run a sequence of slot operations. -/
def SlotSys.run (sys : SlotSys) : List SlotOp → SlotSys
  | [] => sys
  | op :: ops => SlotSys.run (sys.step op) ops
/-- Helper: a successful `acquire_write` from an `Empty` slot holding a
buffer yields exactly this successor slot and payload. -/
theorem acquire_write_ready (s : Slot) (b : List Nat) (h2 : s.state = SlotState.Empty)
    (h3 : s.buffer = some b) :
    s.acquire_write = AcquireOutcome.ready
      ⟨SlotState.Writing, none, none⟩ ⟨b, s.payload_metadata.getD defaultMetadata, true⟩ := by
  obtain ⟨st, buf, md⟩ := s
  obtain rfl : st = SlotState.Empty := h2
  obtain rfl : buf = some b := h3
  rfl

/-- Helper: a successful `acquire_read` from a `Full` slot holding a buffer
yields exactly this successor slot and payload. -/
theorem acquire_read_ready (s : Slot) (b : List Nat) (h2 : s.state = SlotState.Full)
    (h3 : s.buffer = some b) :
    s.acquire_read = AcquireOutcome.ready
      ⟨SlotState.Reading, none, none⟩ ⟨b, s.payload_metadata.getD defaultMetadata, false⟩ := by
  obtain ⟨st, buf, md⟩ := s
  obtain rfl : st = SlotState.Full := h2
  obtain rfl : buf = some b := h3
  rfl

/-- Claim C1: the slot state changes only along the four hand-off edges:
`acquire_write` succeeds only by the compare-and-swap `Empty -> Writing` and
pends from any other state, releasing a write payload moves the state to
`Full`, `acquire_read` succeeds only by `Full -> Reading` and pends
otherwise, and releasing a read payload moves the state to `Empty`; hence a
second `acquire_write` issued right after a grant, or after the write
payload's release but before an intervening read, pends — `Writing` is never
granted to two holders. -/
theorem C1_handoff_edges :
    (∀ s s1 p, Slot.acquire_write s = AcquireOutcome.ready s1 p →
      s.state = SlotState.Empty ∧ s1.state = SlotState.Writing ∧ p.is_write = true)
  ∧ (∀ s, s.state ≠ SlotState.Empty → Slot.acquire_write s = AcquireOutcome.pending)
  ∧ (∀ s s1 p, Slot.acquire_read s = AcquireOutcome.ready s1 p →
      s.state = SlotState.Full ∧ s1.state = SlotState.Reading ∧ p.is_write = false)
  ∧ (∀ s, s.state ≠ SlotState.Full → Slot.acquire_read s = AcquireOutcome.pending)
  ∧ (∀ s buf md, (Slot.release s buf md true).state = SlotState.Full)
  ∧ (∀ s buf md, (Slot.release s buf md false).state = SlotState.Empty)
  ∧ (∀ (s s1 : Slot) (p q : Payload), Slot.acquire_write s = AcquireOutcome.ready s1 p →
      Slot.acquire_write s1 = AcquireOutcome.pending
      ∧ (q.is_write = true → Slot.acquire_write (q.drop s1) = AcquireOutcome.pending)) := by
  refine ⟨?_, ?_, ?_, ?_, fun s buf md => rfl, fun s buf md => rfl, ?_⟩
  · intro s s1 p h
    unfold Slot.acquire_write at h
    split at h
    · unfold Slot.new_payload at h
      split at h
      · exact absurd h (by simp)
      · injection h with h1 h2
        subst h1; subst h2
        exact ⟨by assumption, rfl, rfl⟩
    · exact absurd h (by simp)
  · intro s h
    unfold Slot.acquire_write
    simp [h]
  · intro s s1 p h
    unfold Slot.acquire_read at h
    split at h
    · unfold Slot.new_payload at h
      split at h
      · exact absurd h (by simp)
      · injection h with h1 h2
        subst h1; subst h2
        exact ⟨by assumption, rfl, rfl⟩
    · exact absurd h (by simp)
  · intro s h
    unfold Slot.acquire_read
    simp [h]
  · intro s s1 p q h
    unfold Slot.acquire_write at h
    split at h
    · unfold Slot.new_payload at h
      split at h
      · exact absurd h (by simp)
      · injection h with h1 h2
        subst h1
        refine ⟨rfl, fun hq => ?_⟩
        unfold Payload.drop Slot.release Slot.acquire_write
        simp [hq]
    · exact absurd h (by simp)

/-- Witness for C1: instantiates the pending conjuncts at concrete slots. -/
theorem C1_witness :
    Slot.acquire_write ⟨SlotState.Writing, none, none⟩ = AcquireOutcome.pending
  ∧ Slot.acquire_write
      (Payload.drop ⟨[1, 2], defaultMetadata, true⟩ ⟨SlotState.Writing, none, none⟩)
      = AcquireOutcome.pending := by
  constructor
  · exact C1_handoff_edges.2.1 ⟨SlotState.Writing, none, none⟩ (by decide)
  · exact (C1_handoff_edges.2.2.2.2.2.2 (Slot.new (some [1, 2])) ⟨SlotState.Writing, none, none⟩
      ⟨[1, 2], defaultMetadata, true⟩ ⟨[1, 2], defaultMetadata, true⟩ (by decide)).2 rfl

/-- Claim C2: for a write cycle followed by the next `acquire_read` on the
same slot, the read payload contains exactly the bytes the writer left in
the buffer at release, and its metadata is exactly the metadata stored by
that release (the writer's clamped `valid_length` and its position) — also
visible through `get_current_metadata` while the chunk sits in the slot. -/
theorem C2_exact_handoff (s : Slot) (b0 bs : List Nat) (n : Nat) (pos : Position)
    (h1 : s.state = SlotState.Empty) (h2 : s.buffer = some b0)
    (_h3 : bs.length = b0.length) :
    ∀ s1 p, s.acquire_write = AcquireOutcome.ready s1 p →
      (((Payload.mk bs p.metadata p.is_write).set_valid_length n).set_position pos).drop s1
          = ⟨SlotState.Full, some bs, some ⟨pos, min n bs.length⟩⟩
      ∧ Slot.get_current_metadata
          ((((Payload.mk bs p.metadata p.is_write).set_valid_length n).set_position pos).drop s1)
          = some ⟨pos, min n bs.length⟩
      ∧ Slot.acquire_read
          ((((Payload.mk bs p.metadata p.is_write).set_valid_length n).set_position pos).drop s1)
          = AcquireOutcome.ready ⟨SlotState.Reading, none, none⟩
              ⟨bs, ⟨pos, min n bs.length⟩, false⟩ := by
  intro s1 p h
  rw [acquire_write_ready s b0 h1 h2] at h
  injection h with h4 h5
  subst h4; subst h5
  refine ⟨rfl, rfl, ?_⟩
  exact acquire_read_ready _ bs rfl rfl

/-- Witness for C2 at a concrete slot, buffer and metadata. -/
theorem C2_witness :
    Slot.acquire_read
        ((((Payload.mk [7, 8, 9] defaultMetadata true).set_valid_length 2).set_position
            Position.First).drop ⟨SlotState.Writing, none, none⟩)
      = AcquireOutcome.ready ⟨SlotState.Reading, none, none⟩
          ⟨[7, 8, 9], ⟨Position.First, min 2 3⟩, false⟩ := by
  have h := C2_exact_handoff (Slot.new (some [0, 0, 0])) [0, 0, 0] [7, 8, 9] 2 Position.First
    rfl rfl rfl ⟨SlotState.Writing, none, none⟩ ⟨[0, 0, 0], defaultMetadata, true⟩ rfl
  simpa using h.2.2

/-- Claim C4 counterexample: a full write/release then read/release cycle
from a fresh slot stores metadata with `valid_length` 1; the next
`acquire_write` returns a payload carrying that stale stored metadata, not
the cleared default with `valid_length` zero. -/
theorem C4_counterexample :
    Slot.acquire_write (Slot.new (some [0, 0]))
      = AcquireOutcome.ready ⟨SlotState.Writing, none, none⟩ ⟨[0, 0], defaultMetadata, true⟩
  ∧ Payload.drop
      (((Payload.mk [9, 9] defaultMetadata true).set_valid_length 1).set_position Position.First)
      ⟨SlotState.Writing, none, none⟩
      = ⟨SlotState.Full, some [9, 9], some ⟨Position.First, 1⟩⟩
  ∧ Slot.acquire_read ⟨SlotState.Full, some [9, 9], some ⟨Position.First, 1⟩⟩
      = AcquireOutcome.ready ⟨SlotState.Reading, none, none⟩ ⟨[9, 9], ⟨Position.First, 1⟩, false⟩
  ∧ Payload.drop ⟨[9, 9], ⟨Position.First, 1⟩, false⟩ ⟨SlotState.Reading, none, none⟩
      = ⟨SlotState.Empty, some [9, 9], some ⟨Position.First, 1⟩⟩
  ∧ Slot.acquire_write ⟨SlotState.Empty, some [9, 9], some ⟨Position.First, 1⟩⟩
      = AcquireOutcome.ready ⟨SlotState.Writing, none, none⟩ ⟨[9, 9], ⟨Position.First, 1⟩, true⟩
  ∧ (⟨Position.First, 1⟩ : Metadata).valid_length ≠ 0 := by
  refine ⟨rfl, rfl, rfl, rfl, rfl, by decide⟩

/-- Claim C4 (amended): `acquire_write` returns a payload carrying whatever
metadata is currently stored in the slot when some is stored (for example
the metadata of the previous release), and the cleared default — with
`valid_length` zero — only when none is stored, as on a freshly constructed
slot. -/
theorem C4_write_metadata_from_slot :
    (∀ s b s1 p, s.state = SlotState.Empty → s.buffer = some b →
      Slot.acquire_write s = AcquireOutcome.ready s1 p →
      p.metadata = s.payload_metadata.getD defaultMetadata ∧ p.data = b)
  ∧ (∀ b s1 p, Slot.acquire_write (Slot.new (some b)) = AcquireOutcome.ready s1 p →
      p.metadata = defaultMetadata ∧ p.metadata.valid_length = 0) := by
  constructor
  · intro s b s1 p h1 h2 h
    rw [acquire_write_ready s b h1 h2] at h
    injection h with h4 h5
    subst h5
    exact ⟨rfl, rfl⟩
  · intro b s1 p h
    rw [acquire_write_ready (Slot.new (some b)) b rfl rfl] at h
    injection h with h4 h5
    subst h5
    exact ⟨rfl, rfl⟩

/-- Witness for C4 (amended) at a concrete slot with stored metadata. -/
theorem C4_witness :
    (⟨[9, 9], ⟨Position.First, 1⟩, true⟩ : Payload).metadata
      = (some (⟨Position.First, 1⟩ : Metadata)).getD defaultMetadata := by
  exact (C4_write_metadata_from_slot.1 ⟨SlotState.Empty, some [9, 9], some ⟨Position.First, 1⟩⟩
    [9, 9] ⟨SlotState.Writing, none, none⟩ ⟨[9, 9], ⟨Position.First, 1⟩, true⟩ rfl rfl rfl).1

/-- Claim C5: `set_valid_length(n)` stores `min n capacity`, so the stored
value never exceeds the capacity of the held buffer, and the position
component is untouched. -/
theorem C5_valid_length_clamped :
    ∀ (p : Payload) (n : Nat),
      (p.set_valid_length n).metadata.valid_length = min n p.data.length
      ∧ (p.set_valid_length n).metadata.valid_length ≤ p.data.length
      ∧ (p.set_valid_length n).metadata.position = p.metadata.position
      ∧ (p.set_valid_length n).data = p.data := by
  intro p n
  exact ⟨rfl, Nat.min_le_right n p.data.length, rfl, rfl⟩

/-- Claim C6 counterexample: the `Slot` of `embedded-audio-driver/src/slot.rs`
reaches `Full` through a write cycle, and `set_buffer` on that non-`Empty`
slot silently rebinds the buffer and resets the state — it cannot fail at
all (its result type has no failure case), discarding the in-flight chunk. -/
theorem C6_counterexample :
    DrvSlot.out_port_acquire (DrvSlot.new (some [1]))
      = DrvAcquireOutcome.ready ⟨DrvState.Writing, none⟩ [1]
  ∧ DrvSlot.out_payload_drop ⟨DrvState.Writing, none⟩ [1] = ⟨DrvState.Full, some [1]⟩
  ∧ DrvSlot.set_buffer ⟨DrvState.Full, some [1]⟩ (some [2, 3]) = ⟨DrvState.Empty, some [2, 3]⟩ := by
  refine ⟨rfl, rfl, rfl⟩

/-- Claim C6 (amended): the databus `Slot` (`embedded-audio`) enforces the
precondition — `set_buffer` panics whenever the state is not `Empty` and
otherwise rebinds, leaving the slot `Empty` or `NoneBuffer` according to the
supplied buffer; the driver crate's `Slot::set_buffer` performs no check and
unconditionally rebinds, storing `Empty`. -/
theorem C6_set_buffer_contract :
    (∀ s b, s.state ≠ SlotState.Empty →
      Slot.set_buffer s b
        = SetBufferOutcome.panicked "Cannot set buffer when slot is not empty")
  ∧ (∀ s b, s.state = SlotState.Empty →
      Slot.set_buffer s b = SetBufferOutcome.ok
        { s with buffer := b
                 state := if b.isSome then SlotState.Empty else SlotState.NoneBuffer })
  ∧ (∀ s b, DrvSlot.set_buffer s b = ⟨DrvState.Empty, b⟩) := by
  refine ⟨?_, ?_, fun s b => rfl⟩
  · intro s b h
    unfold Slot.set_buffer
    simp [h]
  · intro s b h
    unfold Slot.set_buffer
    simp [h]

/-- Witness for C6 (amended) at concrete slots. -/
theorem C6_witness :
    Slot.set_buffer ⟨SlotState.Full, some [1], none⟩ (some [2])
      = SetBufferOutcome.panicked "Cannot set buffer when slot is not empty"
  ∧ Slot.set_buffer ⟨SlotState.Empty, some [1], none⟩ none
      = SetBufferOutcome.ok ⟨SlotState.NoneBuffer, none, none⟩ := by
  constructor
  · exact C6_set_buffer_contract.1 ⟨SlotState.Full, some [1], none⟩ (some [2]) (by decide)
  · simpa using C6_set_buffer_contract.2.1 ⟨SlotState.Empty, some [1], none⟩ none rfl

/-- Claim C7 counterexample: the `Slot` of `embedded-audio-driver/src/slot.rs`
constructed without a buffer starts in `Empty` — the producer-available
state — not in a dedicated no-buffer state (its `State` enum has none); the
producer-side compare-and-swap then succeeds and the acquisition panics when
taking the absent buffer. -/
theorem C7_counterexample :
    (DrvSlot.new none).state = DrvState.Empty
  ∧ DrvSlot.out_port_acquire (DrvSlot.new none)
      = DrvAcquireOutcome.panicked "Bug: Slot was in Empty state but buffer was None" := by
  exact ⟨rfl, rfl⟩

/-- Claim C7 (amended): the databus `Slot::new` without a buffer yields
`NoneBuffer` (with a buffer, `Empty`), and on a slot holding no buffer no
acquisition ever silently succeeds: the databus slot's acquisitions pend
forever from `NoneBuffer` and never return a payload whenever the buffer
cell is empty; the driver crate's `Slot::new(None)` yields `Empty` and its
acquisitions either pend or panic, never returning a usable buffer. -/
theorem C7_no_silent_success :
    ((Slot.new none).state = SlotState.NoneBuffer)
  ∧ (∀ b, (Slot.new (some b)).state = SlotState.Empty)
  ∧ (Slot.acquire_read (Slot.new none) = AcquireOutcome.pending)
  ∧ (Slot.acquire_write (Slot.new none) = AcquireOutcome.pending)
  ∧ (∀ s s1 p, s.buffer = none → Slot.acquire_write s ≠ AcquireOutcome.ready s1 p)
  ∧ (∀ s s1 p, s.buffer = none → Slot.acquire_read s ≠ AcquireOutcome.ready s1 p)
  ∧ ((DrvSlot.new none).state = DrvState.Empty)
  ∧ (∀ s s1 d, s.buffer = none → DrvSlot.out_port_acquire s ≠ DrvAcquireOutcome.ready s1 d)
  ∧ (∀ s s1 d, s.buffer = none → DrvSlot.in_port_acquire s ≠ DrvAcquireOutcome.ready s1 d) := by
  refine ⟨rfl, fun b => rfl, rfl, rfl, ?_, ?_, rfl, ?_, ?_⟩
  · intro s s1 p hb h
    unfold Slot.acquire_write Slot.new_payload at h
    rw [hb] at h
    split at h <;> simp_all
  · intro s s1 p hb h
    unfold Slot.acquire_read Slot.new_payload at h
    rw [hb] at h
    split at h <;> simp_all
  · intro s s1 d hb h
    unfold DrvSlot.out_port_acquire at h
    rw [hb] at h
    split at h <;> simp_all
  · intro s s1 d hb h
    unfold DrvSlot.in_port_acquire at h
    rw [hb] at h
    split at h <;> simp_all

/-- Witness for C7 (amended) at a concrete bufferless slot. -/
theorem C7_witness :
    Slot.acquire_write ⟨SlotState.Empty, none, none⟩
      ≠ AcquireOutcome.ready ⟨SlotState.Writing, none, none⟩ ⟨[], defaultMetadata, true⟩ := by
  exact C7_no_silent_success.2.2.2.2.1 ⟨SlotState.Empty, none, none⟩
    ⟨SlotState.Writing, none, none⟩ ⟨[], defaultMetadata, true⟩ rfl

/-- Claim C9 counterexample: on a freshly constructed `WavDecoder` — before
`initialize` has run — `get_port_requirements` panics with the message
`must called after initialize`; it does not fail with the `InvalidState`
error (its signature returns the requirements directly and cannot carry an
`Error` value at all). -/
theorem C9_counterexample :
    WavDecoder.new.port_requirements = none
  ∧ WavDecoder.get_port_requirements WavDecoder.new
      = GetPortReqOutcome.panicked "must called after initialize" := by
  exact ⟨rfl, rfl⟩

/-- Claim C9 (amended): calling `get_port_requirements` before `initialize`
has stored the requirements never returns a requirement — it panics (via
`Option::expect`) with the message `must called after initialize` rather
than returning an `InvalidState` error. -/
theorem C9_panics_before_init :
    ∀ d : WavDecoder, d.port_requirements = none →
      d.get_port_requirements = GetPortReqOutcome.panicked "must called after initialize" := by
  intro d h
  unfold WavDecoder.get_port_requirements
  rw [h]

/-- Witness for C9 (amended) on a fresh decoder. -/
theorem C9_witness :
    WavDecoder.new.get_port_requirements
      = GetPortReqOutcome.panicked "must called after initialize" := by
  exact C9_panics_before_init WavDecoder.new rfl

/-- Helper for C10: from a `NoneBuffer` slot with no outstanding payload,
every operation of the public surface leaves the slot in `NoneBuffer` and
grants no payload: both acquisitions pend and `set_buffer` panics. -/
theorem noneBuffer_step_invariant (sys : SlotSys) (op : SlotOp)
    (h1 : sys.slot.state = SlotState.NoneBuffer) (h2 : sys.held = []) :
    (sys.step op).slot.state = SlotState.NoneBuffer ∧ (sys.step op).held = [] := by
  obtain ⟨slot, held⟩ := sys
  obtain rfl : held = [] := h2
  have h1 : slot.state = SlotState.NoneBuffer := h1
  cases op with
  | acqRead =>
      have hr : slot.acquire_read = AcquireOutcome.pending := by
        unfold Slot.acquire_read
        simp [h1]
      simp [SlotSys.step, hr, h1]
  | acqWrite =>
      have hw : slot.acquire_write = AcquireOutcome.pending := by
        unfold Slot.acquire_write
        simp [h1]
      simp [SlotSys.step, hw, h1]
  | setBuf b =>
      have hs : slot.set_buffer b
          = SetBufferOutcome.panicked "Cannot set buffer when slot is not empty" := by
        unfold Slot.set_buffer
        simp [h1]
      simp [SlotSys.step, hs, h1]
  | dropAt i =>
      simp [SlotSys.step, h1]

/-- Helper for C10: the invariant carried along any operation sequence. -/
theorem noneBuffer_run_invariant (ops : List SlotOp) :
    ∀ sys : SlotSys, sys.slot.state = SlotState.NoneBuffer → sys.held = [] →
      (SlotSys.run sys ops).slot.state = SlotState.NoneBuffer
      ∧ (SlotSys.run sys ops).held = [] := by
  induction ops with
  | nil => intro sys h1 h2; exact ⟨h1, h2⟩
  | cons op ops ih =>
      intro sys h1 h2
      have h := noneBuffer_step_invariant sys op h1 h2
      exact ih (sys.step op) h.1 h.2

/-- Claim C10: a slot constructed without a buffer can never later be given
one: after any sequence of operations on `Slot::new(None)` the state is
still `NoneBuffer`, no payload has ever been granted, and every `set_buffer`
call — with or without a buffer — panics instead of binding it. -/
theorem C10_nonebuffer_permanent :
    ∀ ops : List SlotOp,
      (SlotSys.run ⟨Slot.new none, []⟩ ops).slot.state = SlotState.NoneBuffer
      ∧ (SlotSys.run ⟨Slot.new none, []⟩ ops).held = []
      ∧ ∀ b, ((SlotSys.run ⟨Slot.new none, []⟩ ops).slot.set_buffer b)
          = SetBufferOutcome.panicked "Cannot set buffer when slot is not empty" := by
  intro ops
  have h := noneBuffer_run_invariant ops ⟨Slot.new none, []⟩ rfl rfl
  refine ⟨h.1, h.2, fun b => ?_⟩
  unfold Slot.set_buffer
  simp [h.1]
/-- Helper: the bytes a read returns are exactly `read_count` many. -/
theorem read_bytes_length (r : ByteReader) (n : Nat) :
    (r.read_bytes n).length = r.read_count n := by
  unfold ByteReader.read_bytes ByteReader.read_count
  simp [List.length_take, List.length_drop]

/-- Helper: a read never returns more than requested. -/
theorem read_count_le (r : ByteReader) (n : Nat) : r.read_count n ≤ n := by
  unfold ByteReader.read_count
  exact Nat.min_le_right _ _

/-- Helper: the aligned read size never exceeds the payload capacity. -/
theorem wavAligned_le (d : WavDecoder) (cap : Nat) : wavAligned d cap ≤ cap := by
  unfold wavAligned
  split
  · exact Nat.div_mul_le_self cap d.bytes_per_frame
  · exact Nat.le_refl cap

/-- Helper: the byte count read never exceeds the aligned read size. -/
theorem wavBytesRead_le (d : WavDecoder) (r : ByteReader) (cap : Nat) :
    wavBytesRead d r cap ≤ wavAligned d cap := by
  unfold wavBytesRead
  exact read_count_le _ _

/-- Helper: full characterization of `WavDecoder::process` on the happy
path — header parsed, slot `Empty` and holding a buffer, aligned read size
positive: the reader is sought and advanced, `current_position` grows by the
bytes read, `is_first_chunk` survives only on a `Single` chunk, and the slot
ends `Full`, holding the read-prefixed buffer and metadata whose position
and the returned result follow `specPositionTag` applied to
`(is_first_chunk, is_last)`. -/
theorem wavProcess_char (d : WavDecoder) (r : ByteReader) (s : Slot) (b : List Nat)
    (h1 : d.header_parsed = true) (h2 : s.state = SlotState.Empty) (h3 : s.buffer = some b)
    (h4 : wavAligned d b.length ≠ 0) :
    d.process r s = WavProcessOutcome.ok
      (specPositionTag d.is_first_chunk (wavIsLast d r b.length)).2
      { d with
        current_position := d.current_position + wavBytesRead d r b.length
        is_first_chunk := d.is_first_chunk && wavIsLast d r b.length }
      ((r.seek_start (d.data_start + d.current_position)).advance (wavBytesRead d r b.length))
      ⟨SlotState.Full,
       some ((r.seek_start (d.data_start + d.current_position)).read_bytes (wavAligned d b.length)
         ++ b.drop (wavBytesRead d r b.length)),
       some ⟨(specPositionTag d.is_first_chunk (wavIsLast d r b.length)).1,
             wavBytesRead d r b.length⟩⟩ := by
  obtain ⟨st, buf, md⟩ := s
  obtain rfl : st = SlotState.Empty := h2
  obtain rfl : buf = some b := h3
  have e1 : Slot.acquire_write ⟨SlotState.Empty, some b, md⟩
      = AcquireOutcome.ready ⟨SlotState.Writing, none, none⟩
          ⟨b, md.getD defaultMetadata, true⟩ := rfl
  have hbr : wavBytesRead d r b.length ≤ b.length :=
    Nat.le_trans (wavBytesRead_le d r b.length) (wavAligned_le d b.length)
  have hlen : ((r.seek_start (d.data_start + d.current_position)).read_bytes
      (wavAligned d b.length)).length = wavBytesRead d r b.length :=
    read_bytes_length _ _
  have hmin : min (wavBytesRead d r b.length)
      (((r.seek_start (d.data_start + d.current_position)).read_bytes (wavAligned d b.length)).length
        + (b.drop (wavBytesRead d r b.length)).length) = wavBytesRead d r b.length := by
    rw [hlen, List.length_drop]
    omega
  unfold WavDecoder.process
  rw [h1]
  simp only [Bool.true_eq_false, if_false, e1]
  rw [if_neg h4]
  simp only [Payload.set_valid_length, Payload.set_position, Payload.drop, Slot.release,
    ByteReader.advance, hmin]
  cases hf : d.is_first_chunk <;> cases hl : wavIsLast d r b.length <;>
    simp [specPositionTag, wavBytesRead, read_bytes_length]

/-- Helper: one generated frame holds `channels * min bytes_per_sample 4`
bytes. -/
theorem sineFrame_length (sample : Nat → Int) (bps ch n : Nat) :
    (sineFrame sample bps ch n).length = ch * min bps 4 := by
  unfold sineFrame
  induction ch with
  | zero => simp
  | succ k ih =>
      simp only [List.replicate_succ, List.flatten_cons, List.length_append, ih]
      simp [intLeBytes, List.length_take, Nat.succ_mul]
      omega

/-- Helper: the generation loop writes at most `fuel` frames. -/
theorem sineLoop_length_le (sample : Nat → Int) (bps ch : Nat) (total : Option Nat) :
    ∀ fuel cur, (sineLoop sample bps ch total fuel cur).1.length ≤ fuel * (ch * min bps 4) := by
  intro fuel
  induction fuel with
  | zero => intro cur; simp [sineLoop]
  | succ k ih =>
      intro cur
      unfold sineLoop
      cases total with
      | none =>
          dsimp only
          simp only [List.length_append, sineFrame_length, Nat.succ_mul]
          have := ih (cur + 1)
          omega
      | some t =>
          dsimp only
          by_cases hc : cur ≥ t
          · rw [if_pos hc]
            simp only [sineFrame_length, Nat.succ_mul]
            omega
          · rw [if_neg hc]
            simp only [List.length_append, sineFrame_length, Nat.succ_mul]
            have := ih (cur + 1)
            omega

/-- Helper: full characterization of `SineWaveGenerator::process` on the
happy path — slot `Empty` holding a buffer, at least one frame fitting, byte
width at most four bytes per sample: the loop output is written, the
generator's `current_sample` advances to the loop's final index,
`is_first_chunk` is cleared, and the slot ends `Full` holding the written
bytes with metadata whose position and the returned result follow
`specPositionTag` applied to `(is_first_chunk, ended)`. -/
theorem sineProcess_char (sample : Nat → Int) (g : SineWaveGenerator) (s : Slot)
    (b : List Nat) (h2 : s.state = SlotState.Empty) (h3 : s.buffer = some b)
    (hm : sineMaxFrames g b.length ≠ 0) (hbps : g.info.bits_per_sample / 8 ≤ 4) :
    SineWaveGenerator.process sample g s = SineProcessOutcome.ok
      (specPositionTag g.is_first_chunk (sineRun sample g b.length).2.2).2
      ⟨g.info, (sineRun sample g b.length).2.1, false, g.total_samples⟩
      ⟨SlotState.Full,
       some ((sineRun sample g b.length).1 ++ b.drop (sineRun sample g b.length).1.length),
       some ⟨(specPositionTag g.is_first_chunk (sineRun sample g b.length).2.2).1,
             (sineRun sample g b.length).1.length⟩⟩ := by
  obtain ⟨st, buf, md⟩ := s
  obtain rfl : st = SlotState.Empty := h2
  obtain rfl : buf = some b := h3
  have e1 : Slot.acquire_write ⟨SlotState.Empty, some b, md⟩
      = AcquireOutcome.ready ⟨SlotState.Writing, none, none⟩
          ⟨b, md.getD defaultMetadata, true⟩ := rfl
  have hwl : (sineRun sample g b.length).1.length ≤ b.length := by
    have h5 := sineLoop_length_le sample (g.info.bits_per_sample / 8) g.info.channels
      g.total_samples (sineMaxFrames g b.length) g.current_sample
    have h6 : min (g.info.bits_per_sample / 8) 4 = g.info.bits_per_sample / 8 :=
      Nat.min_eq_left hbps
    have h7 : sineMaxFrames g b.length * (g.info.bits_per_sample / 8 * g.info.channels)
        ≤ b.length := by
      unfold sineMaxFrames
      exact Nat.div_mul_le_self b.length _
    unfold sineRun
    calc (sineLoop sample (g.info.bits_per_sample / 8) g.info.channels g.total_samples
            (sineMaxFrames g b.length) g.current_sample).1.length
        ≤ sineMaxFrames g b.length * (g.info.channels * min (g.info.bits_per_sample / 8) 4) :=
          h5
      _ = sineMaxFrames g b.length * (g.info.bits_per_sample / 8 * g.info.channels) := by
          rw [h6]; ring
      _ ≤ b.length := h7
  have hmin : min (sineRun sample g b.length).1.length
      ((sineRun sample g b.length).1.length + (b.drop (sineRun sample g b.length).1.length).length)
      = (sineRun sample g b.length).1.length := by
    simp
  unfold SineWaveGenerator.process
  simp only [e1]
  rw [if_neg hm]
  simp only [Payload.set_valid_length, Payload.set_position, Payload.drop, Slot.release,
    List.length_append, hmin]
  cases hf : g.is_first_chunk <;> cases hl : (sineRun sample g b.length).2.2 <;>
    simp [specPositionTag]
/-- Claim C3: each chunk emitted by `WavDecoder::process` or
`SineWaveGenerator::process` is tagged exactly by the table over
`(is_first_chunk, is_last)` — `(true,true)` gives `Single` with `Eof`,
`(true,false)` gives `First` with `Fine` and `is_first_chunk` cleared,
`(false,true)` gives `Last` with `Eof`, `(false,false)` gives `Middle` with
`Fine` — where `is_last` is the stage's no-further-data determination
(`wavIsLast`, resp. the loop's `ended` flag). -/
theorem C3_position_table :
    (∀ (d : WavDecoder) (r : ByteReader) (s : Slot) (b : List Nat),
      d.header_parsed = true → s.state = SlotState.Empty → s.buffer = some b →
      wavAligned d b.length ≠ 0 →
      ∀ res d2 r2 s2, d.process r s = WavProcessOutcome.ok res d2 r2 s2 →
        res = (specPositionTag d.is_first_chunk (wavIsLast d r b.length)).2
        ∧ (∃ v, s2.payload_metadata
            = some ⟨(specPositionTag d.is_first_chunk (wavIsLast d r b.length)).1, v⟩)
        ∧ d2.is_first_chunk = (d.is_first_chunk && wavIsLast d r b.length))
  ∧ (∀ (sample : Nat → Int) (g : SineWaveGenerator) (s : Slot) (b : List Nat),
      s.state = SlotState.Empty → s.buffer = some b →
      sineMaxFrames g b.length ≠ 0 → g.info.bits_per_sample / 8 ≤ 4 →
      ∀ res g2 s2, SineWaveGenerator.process sample g s = SineProcessOutcome.ok res g2 s2 →
        res = (specPositionTag g.is_first_chunk (sineRun sample g b.length).2.2).2
        ∧ (∃ v, s2.payload_metadata
            = some ⟨(specPositionTag g.is_first_chunk (sineRun sample g b.length).2.2).1, v⟩)
        ∧ g2.is_first_chunk = false)
  ∧ specPositionTag true true = (Position.Single, ProcessSignal.Eof)
  ∧ specPositionTag true false = (Position.First, ProcessSignal.Fine)
  ∧ specPositionTag false true = (Position.Last, ProcessSignal.Eof)
  ∧ specPositionTag false false = (Position.Middle, ProcessSignal.Fine) := by
  refine ⟨?_, ?_, rfl, rfl, rfl, rfl⟩
  · intro d r s b h1 h2 h3 h4 res d2 r2 s2 h
    rw [wavProcess_char d r s b h1 h2 h3 h4] at h
    injection h with e1 e2 e3 e4
    refine ⟨e1.symm, ?_, ?_⟩
    · rw [← e4]
      exact ⟨wavBytesRead d r b.length, rfl⟩
    · rw [← e2]
  · intro sample g s b h2 h3 hm hbps res g2 s2 h
    rw [sineProcess_char sample g s b h2 h3 hm hbps] at h
    injection h with e1 e2 e3
    refine ⟨e1.symm, ?_, ?_⟩
    · rw [← e3]
      exact ⟨(sineRun sample g b.length).1.length, rfl⟩
    · rw [← e2]

/-- Witness for C3 at a concrete decoder step that emits a `First`/`Fine`
chunk. -/
theorem C3_witness :
    ProcessSignal.Fine
      = (specPositionTag true
          (wavIsLast ⟨some ⟨8000, 1, 8, none⟩, 0, none, 0, 1, true, true⟩
            ⟨List.range 12, 0⟩ 4)).2
  ∧ (⟨some ⟨8000, 1, 8, none⟩, 0, none, 4, 1, true, false⟩ : WavDecoder).is_first_chunk
      = (true && wavIsLast ⟨some ⟨8000, 1, 8, none⟩, 0, none, 0, 1, true, true⟩
          ⟨List.range 12, 0⟩ 4) := by
  have h := C3_position_table.1 ⟨some ⟨8000, 1, 8, none⟩, 0, none, 0, 1, true, true⟩
    ⟨List.range 12, 0⟩ (Slot.new (some [0, 0, 0, 0])) [0, 0, 0, 0] rfl rfl rfl (by decide)
    ProcessSignal.Fine ⟨some ⟨8000, 1, 8, none⟩, 0, none, 4, 1, true, false⟩
    ⟨List.range 12, 4⟩ ⟨SlotState.Full, some [0, 1, 2, 3], some ⟨Position.First, 4⟩⟩ (by decide)
  exact ⟨h.1, h.2.2⟩

/-- Claim C8 counterexample: on an immediately empty stream the first
`process` call does yield a payload to the downstream consumer.  The
`WavDecoder` (44 header bytes, no data bytes) acquires and releases a
payload, leaving the slot `Full` with a zero-length `Single` chunk that the
consumer's `acquire_read` then receives; the `SineWaveGenerator` with
`total_samples = 0` even emits one whole frame (`valid_length` 1). -/
theorem C8_counterexample :
    WavDecoder.process ⟨some ⟨8000, 1, 8, none⟩, 44, none, 0, 1, true, true⟩
        ⟨List.replicate 44 0, 0⟩ (Slot.new (some [0, 0, 0, 0]))
      = WavProcessOutcome.ok ProcessSignal.Eof
          ⟨some ⟨8000, 1, 8, none⟩, 44, none, 0, 1, true, true⟩
          ⟨List.replicate 44 0, 44⟩
          ⟨SlotState.Full, some [0, 0, 0, 0], some ⟨Position.Single, 0⟩⟩
  ∧ Slot.acquire_read ⟨SlotState.Full, some [0, 0, 0, 0], some ⟨Position.Single, 0⟩⟩
      = AcquireOutcome.ready ⟨SlotState.Reading, none, none⟩
          ⟨[0, 0, 0, 0], ⟨Position.Single, 0⟩, false⟩
  ∧ SineWaveGenerator.process (fun _ => 0) ⟨⟨8000, 1, 8, none⟩, 0, true, some 0⟩
        (Slot.new (some [0, 0]))
      = SineProcessOutcome.ok ProcessSignal.Eof ⟨⟨8000, 1, 8, none⟩, 0, false, some 0⟩
          ⟨SlotState.Full, some [0, 0], some ⟨Position.Single, 1⟩⟩ := by
  exact ⟨by decide, by decide, by decide⟩

/-- Claim C8 (amended): on an immediately empty stream the first `process`
call returns `Eof`, but it does yield exactly one payload downstream: the
`WavDecoder` leaves the slot `Full` with a zero-`valid_length` chunk tagged
`Single`, and the `SineWaveGenerator` with a zero sample budget leaves the
slot `Full` with one whole generated frame tagged `Single`. -/
theorem C8_empty_stream_emits :
    (∀ (d : WavDecoder) (r : ByteReader) (s : Slot) (b : List Nat),
      d.header_parsed = true → d.is_first_chunk = true →
      s.state = SlotState.Empty → s.buffer = some b →
      wavAligned d b.length ≠ 0 →
      r.data.length ≤ d.data_start + d.current_position →
      d.process r s = WavProcessOutcome.ok ProcessSignal.Eof d
        (r.seek_start (d.data_start + d.current_position))
        ⟨SlotState.Full, some b, some ⟨Position.Single, 0⟩⟩)
  ∧ (∀ (sample : Nat → Int) (g : SineWaveGenerator) (s : Slot) (b : List Nat),
      g.total_samples = some 0 → g.is_first_chunk = true →
      s.state = SlotState.Empty → s.buffer = some b →
      sineMaxFrames g b.length ≠ 0 → g.info.bits_per_sample / 8 ≤ 4 →
      SineWaveGenerator.process sample g s = SineProcessOutcome.ok ProcessSignal.Eof
        ⟨g.info, g.current_sample, false, some 0⟩
        ⟨SlotState.Full,
         some (sineFrame sample (g.info.bits_per_sample / 8) g.info.channels g.current_sample
           ++ b.drop (sineFrame sample (g.info.bits_per_sample / 8) g.info.channels
                g.current_sample).length),
         some ⟨Position.Single,
               (sineFrame sample (g.info.bits_per_sample / 8) g.info.channels
                 g.current_sample).length⟩⟩) := by
  constructor
  · intro d r s b h1 hif h2 h3 h4 hr
    have hb0 : wavBytesRead d r b.length = 0 := by
      unfold wavBytesRead ByteReader.read_count ByteReader.seek_start
      split <;> simp <;> omega
    have hil : wavIsLast d r b.length = true := by
      unfold wavIsLast
      rw [hb0]
      simp [Nat.pos_of_ne_zero h4]
    have hrb : (r.seek_start (d.data_start + d.current_position)).read_bytes
        (wavAligned d b.length) = [] := by
      have : (r.seek_start (d.data_start + d.current_position)).read_count
          (wavAligned d b.length) = wavBytesRead d r b.length := rfl
      unfold ByteReader.read_bytes
      rw [this, hb0, List.take_zero]
    rw [wavProcess_char d r s b h1 h2 h3 h4]
    obtain ⟨i, ds, pr, cp, bpf, hp, ifc⟩ := d
    obtain rfl : ifc = true := hif
    simp [hb0, hil, hrb, specPositionTag, ByteReader.advance]
  · intro sample g s b ht hif h2 h3 hm hbps
    have hrun : sineRun sample g b.length
        = (sineFrame sample (g.info.bits_per_sample / 8) g.info.channels g.current_sample,
           g.current_sample, true) := by
      unfold sineRun
      rw [ht]
      cases hfm : sineMaxFrames g b.length with
      | zero => exact absurd hfm hm
      | succ k =>
          unfold sineLoop
          dsimp only
          rw [if_pos (Nat.zero_le _)]
    rw [sineProcess_char sample g s b h2 h3 hm hbps]
    obtain ⟨i, cs, ifc, ts⟩ := g
    obtain rfl : ifc = true := hif
    obtain rfl : ts = some 0 := ht
    simp [hrun, specPositionTag]

/-- Witness for C8 (amended) at the concrete empty-stream inputs. -/
theorem C8_witness :
    WavDecoder.process ⟨some ⟨8000, 1, 8, none⟩, 44, none, 0, 1, true, true⟩
        ⟨List.replicate 44 0, 0⟩ (Slot.new (some [0, 0, 0, 0]))
      = WavProcessOutcome.ok ProcessSignal.Eof
          ⟨some ⟨8000, 1, 8, none⟩, 44, none, 0, 1, true, true⟩
          ((⟨List.replicate 44 0, 0⟩ : ByteReader).seek_start 44)
          ⟨SlotState.Full, some [0, 0, 0, 0], some ⟨Position.Single, 0⟩⟩
  ∧ SineWaveGenerator.process (fun _ => 1) ⟨⟨8000, 1, 8, none⟩, 5, true, some 0⟩
        (Slot.new (some [0, 0]))
      = SineProcessOutcome.ok ProcessSignal.Eof ⟨⟨8000, 1, 8, none⟩, 5, false, some 0⟩
          ⟨SlotState.Full,
           some (sineFrame (fun _ => 1) 1 1 5 ++ [0, 0].drop (sineFrame (fun _ => 1) 1 1 5).length),
           some ⟨Position.Single, (sineFrame (fun _ => 1) 1 1 5).length⟩⟩ := by
  constructor
  · exact C8_empty_stream_emits.1 ⟨some ⟨8000, 1, 8, none⟩, 44, none, 0, 1, true, true⟩
      ⟨List.replicate 44 0, 0⟩ (Slot.new (some [0, 0, 0, 0])) [0, 0, 0, 0]
      rfl rfl rfl rfl (by decide) (by decide)
  · exact C8_empty_stream_emits.2 (fun _ => 1) ⟨⟨8000, 1, 8, none⟩, 5, true, some 0⟩
      (Slot.new (some [0, 0])) [0, 0] rfl rfl rfl rfl (by decide) (by decide)
